import Mathlib

/-!
Shallow embedding of the task/analytics backend (FastAPI + SQLAlchemy sources
under `backend/app`), covering:

* `routes/tasks.py` — task create/update and their Google-Calendar
  reconciliation side effects (remote calls modelled by outcome oracles);
* `services/google_calendar.py` — `_build_event_body`;
* `routes/analytics.py` — `get_analytics_metrics` and `get_daily_stats`;
* `routes/pomodoro.py` — `update_session` and `get_stats`.

Modelling conventions:

* Python `datetime.date` values are represented by their proleptic-Gregorian
  ordinal (`date.toordinal`), a bijection under which `timedelta(days=k)`
  is integer addition and date comparison is integer comparison.
  `_build_event_body` additionally needs calendar (year/month/day) structure
  and is given a separate `Ymd` type with Gregorian day-successor rules.
* Python numbers are modelled exactly over `ℚ` (`float` representation
  noise is out of scope); Python's `round` (banker's rounding, half to
  even) is `pyRound` / `pyRound1`.
* A Python expression `a / b` raises `ZeroDivisionError` when `b = 0`; this
  is modelled by the fallible `pyDiv?` returning `none`.  The analytics code
  guards every division, which is proved by relating the fallible and total
  versions of each rate.
* Remote HTTP calls (weather, Google Calendar) are modelled by outcome
  oracles passed as arguments; the embedding records which calendar calls a
  handler issues.  Returning a task value models the local DB commit, which
  in the source is unconditional once the handler reaches `db.commit()`.

Everything lives in namespace `App` (the Python package name) because the
model class `Task` would otherwise collide with a core Lean type.
-/

namespace App

/-- A calendar day: `datetime.date` represented by `date.toordinal()`.
`date - timedelta(days=k)` is `ord - k`, and comparison of dates is
comparison of ordinals. -/
structure Day where
  ord : Int
deriving DecidableEq, Repr

/-- Python `round(x)`: nearest integer, ties to the even integer. -/
def pyRound (x : ℚ) : Int :=
  let f : Int := ⌊x⌋
  let r : ℚ := x - (f : ℚ)
  if r < 1 / 2 then f
  else if 1 / 2 < r then f + 1
  else if f % 2 = 0 then f else f + 1

/-- Python `round(x, 1)`: round to one decimal place (exactly, over `ℚ`). -/
def pyRound1 (x : ℚ) : ℚ :=
  (pyRound (x * 10) : ℚ) / 10

/-- Python division `a / b`: raises `ZeroDivisionError` when `b = 0`,
modelled as `none`. -/
def pyDiv? (a b : ℚ) : Option ℚ :=
  if b = 0 then none else some (a / b)

/-- Truthiness of a Python `Optional[str]`: `None` and `""` are falsy. -/
def pyTruthyStr : Option String → Bool
  | none => false
  | some s => s ≠ ""

/-- Truthiness of a Python `Optional[bool]`: only `True` is truthy. -/
def pyTruthyBool : Option Bool → Bool
  | none => false
  | some b => b

/-- ASCII whitespace stripped by Python `int(str)` (`str.strip()` default
set, restricted to ASCII; exotic Unicode spaces are out of scope). -/
def isPySpace (c : Char) : Bool :=
  c = ' ' || c = '\t' || c = '\n' || c = '\r' || c = '\x0b' || c = '\x0c'

/-- Digit-run parser for Python `int`: digits with single underscores
allowed strictly between digits.  `acc` is the value so far, `lastU` records
whether the previous character was an underscore. -/
def pyDigitsAux : List Char → Nat → Bool → Option Nat
  | [], acc, lastU => if lastU then none else some acc
  | c :: cs, acc, lastU =>
    if c.isDigit then pyDigitsAux cs (acc * 10 + (c.toNat - 48)) false
    else if c = '_' then (if lastU then none else pyDigitsAux cs acc true)
    else none

/-- A nonempty digit run (first character must be a digit). -/
def pyDigits? : List Char → Option Nat
  | [] => none
  | c :: cs => if c.isDigit then pyDigitsAux cs (c.toNat - 48) false else none

/-- Python `int(s)` on a character list: optional surrounding whitespace,
optional sign, then digits (underscore separators allowed between digits).
`none` models the `ValueError` raised on any other input. -/
def pyIntChars? (l : List Char) : Option Int :=
  let cs := ((l.dropWhile isPySpace).reverse.dropWhile isPySpace).reverse
  match cs with
  | '+' :: rest => (pyDigits? rest).map (fun n => (n : Int))
  | '-' :: rest => (pyDigits? rest).map (fun n => -(n : Int))
  | rest => (pyDigits? rest).map (fun n => (n : Int))

/-- Python `int(s)` for decimal strings. -/
def pyInt? (s : String) : Option Int :=
  pyIntChars? s.toList

/-- Python `str.split(sep)` for a one-character separator, over character
lists (`"".split(sep) == [""]`, i.e. the result is never empty). -/
def splitOnChar (sep : Char) : List Char → List (List Char)
  | [] => [[]]
  | c :: cs =>
    let r := splitOnChar sep cs
    if c = sep then [] :: r
    else
      match r with
      | g :: gs => (c :: g) :: gs
      | [] => [[c]]

/-- Python `str.zfill(w)`: left-pad with zeros to width `w`, inserting the
padding after a leading sign character. -/
def pyZfill (s : String) (w : Nat) : String :=
  if w ≤ s.length then s
  else
    match s.toList with
    | '+' :: rest => "+" ++ String.mk (List.replicate (w - s.length) '0') ++ String.mk rest
    | '-' :: rest => "-" ++ String.mk (List.replicate (w - s.length) '0') ++ String.mk rest
    | l => String.mk (List.replicate (w - s.length) '0') ++ String.mk l

/-- A Gregorian calendar date, used where the source formats or advances
`datetime` values (`services/google_calendar.py`). -/
structure Ymd where
  year : Int
  month : Nat
  day : Nat
deriving DecidableEq, Repr

def isLeapYear (y : Int) : Bool :=
  y % 4 = 0 && (y % 100 ≠ 0 || y % 400 = 0)

def daysInMonth (y : Int) (m : Nat) : Nat :=
  if m = 2 then (if isLeapYear y then 29 else 28)
  else if m = 4 || m = 6 || m = 9 || m = 11 then 30
  else 31

/-- `date + timedelta(days=1)` on a calendar date. -/
def nextDay (d : Ymd) : Ymd :=
  if d.day < daysInMonth d.year d.month then ⟨d.year, d.month, d.day + 1⟩
  else if d.month < 12 then ⟨d.year, d.month + 1, 1⟩
  else ⟨d.year + 1, 1, 1⟩

def pad2 (n : Nat) : String := pyZfill (toString n) 2

/-- `strftime("%Y-%m-%d")`: zero-padded ISO date string. -/
def fmtYmd (d : Ymd) : String :=
  pyZfill (toString d.year) 4 ++ "-" ++ pad2 d.month ++ "-" ++ pad2 d.day

/-- A `start`/`end` member of a Google Calendar event body: either a
`dateTime` + `timeZone` pair (timed event) or a bare `date` (all-day). -/
inductive GEventTime
  | timed (dateTime : String) (timeZone : String)
  | allDay (date : String)
deriving DecidableEq, Repr

/-- The event body built by `_build_event_body` (`stop` models the `"end"`
key; `end` is a Lean keyword). -/
structure GEvent where
  summary : String
  description : String
  location : Option String
  recurrence : Option (List String)
  start : GEventTime
  stop : GEventTime
deriving DecidableEq, Repr

/-- `_build_recurrence_rule`: map a recurrence keyword to an RRULE list;
falsy input, `"none"`, and unknown keywords yield no rule. -/
def buildRecurrenceRule (recurrence : Option String) : Option (List String) :=
  if !pyTruthyStr recurrence || recurrence = some "none" then none
  else
    let r := (recurrence.getD "").toLower
    if r = "daily" then some ["RRULE:FREQ=DAILY"]
    else if r = "weekly" then some ["RRULE:FREQ=WEEKLY"]
    else if r = "monthly" then some ["RRULE:FREQ=MONTHLY"]
    else if r = "yearly" then some ["RRULE:FREQ=YEARLY"]
    else none

/-- The two `int(...)` calls of `_build_event_body`'s timed branch:
`hour = int(parts[0])`, `minute = int(parts[1]) if len(parts) > 1 else 0`.
`none` models the caught `ValueError` (the fallback path). -/
def parseHourMinute (t : String) : Option (Int × Int) :=
  let parts := splitOnChar ':' t.toList
  match pyIntChars? (parts.headD []),
      (if 1 < parts.length then pyIntChars? (parts.getD 1 []) else some (0 : Int)) with
  | some hour, some minute => some (hour, minute)
  | _, _ => none

/-- `_build_event_body` (`services/google_calendar.py`, lines 116–201).
`todayUtc` models `datetime.now(timezone.utc).date()`, used only when no
date is given.  In the source the `date` argument is a `datetime`; only its
calendar date is consumed (`strftime("%Y-%m-%d")`), so it is modelled as
`Ymd`.  The source recovers the next day via
`strptime(date_str, "%Y-%m-%d") + timedelta(days=1)`, which on the
round-tripped date string equals `nextDay`. -/
def buildEventBody (todayUtc : Ymd) (title : String) (description : Option String)
    (date : Option Ymd) (time : Option String) (location : Option String)
    (recurrence : Option String) : GEvent :=
  let desc := description.getD ""
  let loc := if pyTruthyStr location then location else none
  let rrule := buildRecurrenceRule recurrence
  match date with
  | some d =>
    let dateStr := fmtYmd d
    if pyTruthyStr time then
      match parseHourMinute (time.getD "") with
      | some (hour, minute) =>
        let startDT := dateStr ++ "T" ++ pyZfill (toString hour) 2 ++ ":" ++
          pyZfill (toString minute) 2 ++ ":00"
        let rolled := 24 ≤ hour + 1
        let endHour : Int := if rolled then 0 else hour + 1
        let endDateStr := if rolled then fmtYmd (nextDay d) else dateStr
        let endDT := endDateStr ++ "T" ++ pyZfill (toString endHour) 2 ++ ":" ++
          pyZfill (toString minute) 2 ++ ":00"
        { summary := title, description := desc, location := loc, recurrence := rrule,
          start := .timed startDT "UTC", stop := .timed endDT "UTC" }
      | none =>
        { summary := title, description := desc, location := loc, recurrence := rrule,
          start := .allDay dateStr, stop := .allDay (fmtYmd (nextDay d)) }
    else
      { summary := title, description := desc, location := loc, recurrence := rrule,
        start := .allDay dateStr, stop := .allDay (fmtYmd (nextDay d)) }
  | none =>
    { summary := title, description := desc, location := loc, recurrence := rrule,
      start := .allDay (fmtYmd todayUtc), stop := .allDay (fmtYmd (nextDay todayUtc)) }

/-- Well-formedness of an `"HH:MM"` wall-clock time string, following the
spec's words: two digit pairs separated by a colon, hour `00`–`23`,
minute `00`–`59`. -/
def specWellFormedTime (s : String) : Bool :=
  match s.toList with
  | [h1, h2, ':', m1, m2] =>
    h1.isDigit && h2.isDigit && m1.isDigit && m2.isDigit &&
    decide ((h1.toNat - 48) * 10 + (h2.toNat - 48) < 24) &&
    decide ((m1.toNat - 48) * 10 + (m2.toNat - 48) < 60)
  | _ => false

/-- Whether an event body uses the all-day encoding for both endpoints. -/
def isAllDayBody (e : GEvent) : Bool :=
  match e.start, e.stop with
  | .allDay _, .allDay _ => true
  | _, _ => false

/-- Opaque weather snapshot (`weather_data` JSON blob); its contents are
never inspected by the code under verification. -/
structure WeatherData where
  blob : String
deriving DecidableEq, Repr

/-- The `Task` ORM row (`models/task.py`), restricted to the fields the
verified handlers read or write.  `category` stands for the joined
`Category.name` consumed by the analytics breakdowns; the numeric foreign
key adds nothing for the claims. -/
structure Task where
  title : String
  description : Option String
  date : Option Day
  time : Option String
  completed : Bool
  priority : String
  location : Option String
  category : Option String
  weather_data : Option WeatherData
  google_calendar_event_id : Option String
  sync_with_google_calendar : Bool
deriving DecidableEq, Repr

/-- The `TaskUpdate` request body under `model_dump(exclude_unset=True)`
semantics: outer `none` means the field was absent from the payload and is
not written; for row-nullable fields `some none` is an explicit null.
(Pydantic would also admit explicit nulls for `title`, `completed`,
`priority` and the sync flag, which would write `NULL` into non-nullable
columns; those degenerate payloads are outside the model.) -/
structure TaskUpdateP where
  title : Option String := none
  description : Option (Option String) := none
  date : Option (Option Day) := none
  time : Option (Option String) := none
  completed : Option Bool := none
  priority : Option String := none
  location : Option (Option String) := none
  category : Option (Option String) := none
  sync_with_google_calendar : Option Bool := none
deriving DecidableEq, Repr

/-- The `setattr` loop of `update_task` (lines 186–189): every field present
in the payload overwrites the row field. -/
def applyUpdates (t : Task) (p : TaskUpdateP) : Task :=
  { t with
    title := p.title.getD t.title
    description := p.description.getD t.description
    date := p.date.getD t.date
    time := p.time.getD t.time
    completed := p.completed.getD t.completed
    priority := p.priority.getD t.priority
    location := p.location.getD t.location
    category := p.category.getD t.category
    sync_with_google_calendar := p.sync_with_google_calendar.getD t.sync_with_google_calendar }

/-- Outcome oracle for `create_calendar_event`: `ok v` is a 2xx response
whose body's `.get("id")` returned `v`; `exn` is any raised error
(token-exchange failure, network error, non-2xx). -/
inductive CreateOutcome
  | ok (id : Option String)
  | exn
deriving DecidableEq, Repr

/-- Outcome oracle for `update_calendar_event`: a remote 404 returns `None`
instead of raising; `exn` is any raised error. -/
inductive UpdateOutcome
  | ok
  | notFound
  | exn
deriving DecidableEq, Repr

/-- Outcome oracle for `delete_calendar_event`: a remote 404 returns `False`
instead of raising; `exn` is any raised error. -/
inductive DeleteOutcome
  | ok
  | notFound
  | exn
deriving DecidableEq, Repr

/-- One remote Google-Calendar call issued by a handler. -/
inductive CalCall
  | create
  | update (id : String)
  | delete (id : String)
deriving DecidableEq, Repr

/-- The `TaskCreate` request body (all fields carry their schema
defaults). -/
structure TaskCreateP where
  title : String
  description : Option String := none
  date : Option Day := none
  time : Option String := none
  priority : String := "medium"
  location : Option String := none
  category : Option String := none
  sync_with_google_calendar : Bool := false
deriving DecidableEq, Repr

/-- `create_task` (`routes/tasks.py`, lines 80–132).  `hasToken` is the
truthiness of `current_user.google_refresh_token`; `weatherRes` is the
weather service's reply (`None` on any failure).  The returned task is the
row as committed; the call list records the remote calendar calls issued.
A raised calendar error is caught (lines 120–124) and the commit at
line 129 still runs. -/
def createTask (hasToken : Bool) (cRes : CreateOutcome) (weatherRes : Option WeatherData)
    (td : TaskCreateP) : Task × List CalCall :=
  let t0 : Task :=
    { title := td.title, description := td.description, date := td.date,
      time := td.time, completed := false, priority := td.priority,
      location := td.location, category := td.category, weather_data := none,
      google_calendar_event_id := none,
      sync_with_google_calendar := td.sync_with_google_calendar }
  let t1 := if pyTruthyStr td.location then
      (match weatherRes with
        | some w => { t0 with weather_data := some w }
        | none => t0)
    else t0
  if td.sync_with_google_calendar && hasToken then
    match cRes with
    | .ok v => ({ t1 with google_calendar_event_id := v }, [.create])
    | .exn => (t1, [.create])
  else (t1, [])

/-- `update_task` (`routes/tasks.py`, lines 158–242).  The payload fields
are applied first (lines 186–189); the weather comparison at line 192 then
compares the payload's location against the already-overwritten row field.
In the calendar block (lines 197–237) a raised remote error is caught at
line 235, abandoning the rest of the `try` body: in the delete branch the
clearing of `google_calendar_event_id` at line 232 is skipped when
`delete_calendar_event` raises.  The `uRes` oracle never affects the row (a
remote 404 returns `None`, other outcomes change nothing locally). -/
def updateTask (hasToken : Bool) (cRes : CreateOutcome) (uRes : UpdateOutcome)
    (dRes : DeleteOutcome) (weatherRes : Option WeatherData)
    (t : Task) (p : TaskUpdateP) : Task × List CalCall :=
  let old_id := t.google_calendar_event_id
  let t1 := applyUpdates t p
  let locPayload : Option String := p.location.getD none
  let t2 := if pyTruthyStr locPayload && locPayload != t1.location then
      (match weatherRes with
        | some w => { t1 with weather_data := some w }
        | none => t1)
    else t1
  let _ := uRes
  if hasToken then
    if t2.sync_with_google_calendar && !(pyTruthyStr old_id) then
      match cRes with
      | .ok v => ({ t2 with google_calendar_event_id := v }, [.create])
      | .exn => (t2, [.create])
    else if pyTruthyStr t2.google_calendar_event_id && t2.sync_with_google_calendar then
      (t2, [CalCall.update (t2.google_calendar_event_id.getD "")])
    else if pyTruthyStr old_id && !t2.sync_with_google_calendar then
      match dRes with
      | .exn => (t2, [CalCall.delete (old_id.getD "")])
      | _ => ({ t2 with google_calendar_event_id := none }, [CalCall.delete (old_id.getD "")])
    else (t2, [])
  else (t2, [])

/-- The `PomodoroSession` ORM row.  Stats only consume `started_at.date()`,
modelled by `started_day`; the two instant-valued timestamps are abstract
integers. -/
structure PomodoroSession where
  session_type : String
  target_duration : Int
  elapsed_minutes : Int
  is_completed : Bool
  started_day : Day
  last_updated : Int
  completed_at : Option Int
deriving DecidableEq, Repr

/-- The `PomodoroSessionUpdate` request body. -/
structure PomodoroSessionUpdate where
  elapsed_minutes : Int
  is_completed : Option Bool := none
deriving DecidableEq, Repr

/-- `update_session` (`routes/pomodoro.py`, lines 47–80): overwrite
`elapsed_minutes`, stamp `last_updated`, and only when the payload's
completion flag is truthy set `is_completed` and stamp `completed_at`. -/
def updateSession (now : Int) (s : PomodoroSession) (p : PomodoroSessionUpdate) :
    PomodoroSession :=
  let s1 := { s with elapsed_minutes := p.elapsed_minutes, last_updated := now }
  if pyTruthyBool p.is_completed then
    { s1 with is_completed := true, completed_at := some now }
  else s1

/-- The fields of `PomodoroStatsResponse` reached by a claim
(`daily_breakdown` repeats the same work-scoped aggregation per day and is
not separately claimed). -/
structure PomodoroStats where
  today_sessions : Nat
  today_focus_minutes : Int
  week_sessions : Nat
  week_focus_minutes : Int
  total_sessions : Nat
  total_focus_hours : ℚ
deriving DecidableEq, Repr

/-- `get_stats` (`routes/pomodoro.py`, lines 119–170).  The DB query keeps
only `session_type == "work"` rows; counts require `is_completed`, minute
sums do not. -/
def getStats (today : Day) (sessions : List PomodoroSession) : PomodoroStats :=
  let all_sessions := sessions.filter (fun s => s.session_type == "work")
  let today_list := all_sessions.filter (fun s => s.started_day == today)
  let today_focus := (today_list.map (·.elapsed_minutes)).sum
  let week_list := all_sessions.filter (fun s => decide (today.ord - 7 ≤ s.started_day.ord))
  let week_focus := (week_list.map (·.elapsed_minutes)).sum
  let completed_sessions := all_sessions.filter (·.is_completed)
  let total_minutes := (all_sessions.map (·.elapsed_minutes)).sum
  { today_sessions := (today_list.filter (·.is_completed)).length
    today_focus_minutes := today_focus
    week_sessions := (week_list.filter (·.is_completed)).length
    week_focus_minutes := week_focus
    total_sessions := completed_sessions.length
    total_focus_hours := pyRound1 ((total_minutes : ℚ) / 60) }

/-! ## Analytics engine (`routes/analytics.py`)

The model follows `get_analytics_metrics` line by line; each guarded
Python ratio `(a / b * 100) if cond else 0` gets two renderings: the total
one (`ℚ`) used by downstream fields, and a fallible one (`Option ℚ`) in
which the division itself is `pyDiv?`, so that "the guard prevents a
`ZeroDivisionError`" is a provable statement rather than a modelling
assumption.  Fields without any division (priority breakdown, simulated
focus hours, insight deltas) carry no claim and are omitted. -/

def completedCount (tasks : List Task) : Nat :=
  (tasks.filter (·.completed)).length

/-- `completion_rate` (line 44), before the final 1-decimal rounding. -/
def completionRate (tasks : List Task) : ℚ :=
  if 0 < tasks.length then (completedCount tasks : ℚ) / (tasks.length : ℚ) * 100 else 0

def completionRateE (tasks : List Task) : Option ℚ :=
  if 0 < tasks.length then
    (pyDiv? (completedCount tasks : ℚ) (tasks.length : ℚ)).map (· * 100)
  else some 0

/-- `day_tasks` (line 52): tasks whose (truthy) date equals the given day. -/
def tasksOnDay (tasks : List Task) (d : Day) : List Task :=
  tasks.filter (fun t => t.date == some d)

/-- `day_rate` (line 55), before rounding. -/
def dayRate (tasks : List Task) (d : Day) : ℚ :=
  let dt := tasksOnDay tasks d
  if 0 < dt.length then (completedCount dt : ℚ) / (dt.length : ℚ) * 100 else 0

def dayRateE (tasks : List Task) (d : Day) : Option ℚ :=
  let dt := tasksOnDay tasks d
  if 0 < dt.length then (pyDiv? (completedCount dt : ℚ) (dt.length : ℚ)).map (· * 100)
  else some 0

/-- `weekly_trend` (lines 47–56): one rounded rate per day, `today-6` up to
`today`. -/
def weeklyTrend (today : Day) (tasks : List Task) : List ℚ :=
  (List.range 7).map (fun i => pyRound1 (dayRate tasks ⟨today.ord - ((6 - i : Nat) : Int)⟩))

/-- `recent_tasks` (line 99): `t.date and t.date.date() >= week_ago` with
`week_ago = today - timedelta(days=7)` — a lower bound only. -/
def recentTasks (today : Day) (tasks : List Task) : List Task :=
  tasks.filter (fun t =>
    match t.date with
    | some d => decide (today.ord - 7 ≤ d.ord)
    | none => false)

/-- `recent_rate` (line 101). -/
def recentRate (today : Day) (tasks : List Task) : ℚ :=
  let r := recentTasks today tasks
  if 0 < r.length then (completedCount r : ℚ) / (r.length : ℚ) * 100 else 0

def recentRateE (today : Day) (tasks : List Task) : Option ℚ :=
  let r := recentTasks today tasks
  if 0 < r.length then (pyDiv? (completedCount r : ℚ) (r.length : ℚ)).map (· * 100)
  else some 0

/-- `productivity_score` (lines 103–107); the literals `0.4`, `0.3` are the
exact rationals `4/10`, `3/10`. -/
def productivityScore (today : Day) (tasks : List Task) : Int :=
  pyRound (completionRate tasks * (4 / 10) + recentRate today tasks * (3 / 10) +
    min (((recentTasks today tasks).length : ℚ) / 20) 1 * 30)

def productivityScoreE (today : Day) (tasks : List Task) : Option Int := do
  let cr ← completionRateE tasks
  let rr ← recentRateE today tasks
  let frac ← pyDiv? ((recentTasks today tasks).length : ℚ) 20
  some (pyRound (cr * (4 / 10) + rr * (3 / 10) + min frac 1 * 30))

/-- The day filter of the streak loop (lines 113–114): at least one
completed task with a (truthy) date equal to the given day. -/
def hasCompletedOn (tasks : List Task) (d : Day) : Bool :=
  tasks.any (fun t => t.date == some d && t.completed)

/-- The streak `while`-loop (lines 110–119), walking one day back per
iteration.  The source loop is unbounded; it terminates because each
counted day consumes a distinct completed task, so `tasks.length + 1`
iterations always suffice — `current_streak_spec` below proves the fuel
never binds. -/
def streakAux (tasks : List Task) : Day → Nat → Nat
  | _, 0 => 0
  | d, fuel + 1 =>
    if hasCompletedOn tasks d then streakAux tasks ⟨d.ord - 1⟩ fuel + 1 else 0

def currentStreak (today : Day) (tasks : List Task) : Nat :=
  streakAux tasks today (tasks.length + 1)

/-- `month_tasks` (line 122): dated on or after `today - 30` (again a lower
bound only). -/
def monthTasks (today : Day) (tasks : List Task) : List Task :=
  tasks.filter (fun t =>
    match t.date with
    | some d => decide (today.ord - 30 ≤ d.ord)
    | none => false)

/-- `month_rate` (line 124). -/
def monthRate (today : Day) (tasks : List Task) : ℚ :=
  let m := monthTasks today tasks
  if 0 < m.length then (completedCount m : ℚ) / (m.length : ℚ) * 100 else 0

def monthRateE (today : Day) (tasks : List Task) : Option ℚ :=
  let m := monthTasks today tasks
  if 0 < m.length then (pyDiv? (completedCount m : ℚ) (m.length : ℚ)).map (· * 100)
  else some 0

/-- Category keys of `category_breakdown` (lines 59–67): first-occurrence
order, tasks without a category skipped. -/
def firstOccur (seen : List String) : List String → List String
  | [] => []
  | x :: xs => if seen.contains x then firstOccur seen xs else x :: firstOccur (x :: seen) xs

def categoryNames (tasks : List Task) : List String :=
  firstOccur [] (tasks.filterMap (·.category))

def catTotal (tasks : List Task) (name : String) : Nat :=
  (tasks.filter (fun t => t.category == some name)).length

/-- `percentage` (line 72), before rounding. -/
def categoryPercentage (tasks : List Task) (name : String) : ℚ :=
  if 0 < tasks.length then (catTotal tasks name : ℚ) / (tasks.length : ℚ) * 100 else 0

def categoryPercentageE (tasks : List Task) (name : String) : Option ℚ :=
  if 0 < tasks.length then
    (pyDiv? (catTotal tasks name : ℚ) (tasks.length : ℚ)).map (· * 100)
  else some 0

/-- `CategoryBreakdownItem` of the response schema. -/
structure CategoryBreakdownItem where
  name : String
  value : Nat
  percentage : ℚ
deriving DecidableEq, Repr

/-- `category_data` (lines 70–77). -/
def categoriesData (tasks : List Task) : List CategoryBreakdownItem :=
  (categoryNames tasks).map (fun n =>
    { name := n, value := catTotal tasks n,
      percentage := pyRound1 (categoryPercentage tasks n) })

/-- The claim-relevant fields of `AnalyticsSummary` in the response
(lines 128–136). -/
structure AnalyticsSummary where
  total_tasks : Nat
  completed_tasks : Nat
  completion_rate : ℚ
  productivity_score : Int
  current_streak : Nat
  goal_achievement_month : ℚ
deriving DecidableEq, Repr

def analyticsSummary (today : Day) (tasks : List Task) : AnalyticsSummary :=
  { total_tasks := tasks.length
    completed_tasks := completedCount tasks
    completion_rate := pyRound1 (completionRate tasks)
    productivity_score := productivityScore today tasks
    current_streak := currentStreak today tasks
    goal_achievement_month := pyRound1 (monthRate today tasks) }

/-! ## Daily stats (`routes/analytics.py`, `get_daily_stats`, lines 160–207)

The source pre-fills a dict keyed by the dates `start_date + i`
(`i < days`) in ascending insertion order, counts tasks into existing keys
only, and finally iterates `sorted(daily_stats.keys())`.  Since the keys
are exactly those `days` distinct ascending dates, the sorted iteration
re-visits them in insertion order, and the per-key counts are the counts of
(range-filtered) tasks dated exactly at the key; the model below builds the
same series directly. -/

structure DailyStatsItem where
  date : Day
  total : Nat
  completed : Nat
  completion_rate : ℚ
deriving DecidableEq, Repr

def dailyStatsStart (days : Nat) (today : Day) : Day :=
  ⟨today.ord - ((days : Int) - 1)⟩

/-- The per-item rate (lines 196–204): guarded ratio, then 1-decimal
rounding. -/
def dailyRate (completed total : Nat) : ℚ :=
  pyRound1 (if 0 < total then (completed : ℚ) / (total : ℚ) * 100 else 0)

def dailyRateE (completed total : Nat) : Option ℚ :=
  if 0 < total then (pyDiv? (completed : ℚ) (total : ℚ)).map (fun q => pyRound1 (q * 100))
  else some (pyRound1 0)

/-- The DB query of `get_daily_stats` (lines 173–176): tasks dated on or
after `start_date` (NULL dates excluded by the SQL comparison). -/
def dailyDbTasks (days : Nat) (today : Day) (tasks : List Task) : List Task :=
  tasks.filter (fun t =>
    match t.date with
    | some d => decide ((dailyStatsStart days today).ord ≤ d.ord)
    | none => false)

/-- The series entry for day `start_date + i`. -/
def dailyItem (days : Nat) (today : Day) (tasks : List Task) (i : Nat) : DailyStatsItem :=
  let d : Day := ⟨(dailyStatsStart days today).ord + i⟩
  let dayTs := (dailyDbTasks days today tasks).filter (fun t => t.date == some d)
  { date := d, total := dayTs.length,
    completed := (dayTs.filter (·.completed)).length,
    completion_rate := dailyRate (dayTs.filter (·.completed)).length dayTs.length }

def getDailyStats (days : Nat) (today : Day) (tasks : List Task) : List DailyStatsItem :=
  (List.range days).map (dailyItem days today tasks)


/-- Follows the spec's words, for comparison with the code:
"recent = tasks dated within the trailing 7 days (inclusive of today)" —
the seven calendar days `today - 6 .. today`. -/
def specRecentTasks (today : Day) (tasks : List Task) : List Task :=
  tasks.filter (fun t =>
    match t.date with
    | some dd => decide (today.ord - 6 ≤ dd.ord ∧ dd.ord ≤ today.ord)
    | none => false)

/-- Follows the spec's words: completion rate over the spec's recent
window, zero when the window is empty. -/
def specRecentRate (today : Day) (tasks : List Task) : ℚ :=
  let r := specRecentTasks today tasks
  if 0 < r.length then (completedCount r : ℚ) / (r.length : ℚ) * 100 else 0

/-- Follows the spec's words:
`round(0.4*completion_rate + 0.3*recent_rate + 0.3*min(recent_count/20,1)*100)`
with "recent" as the spec's trailing window. -/
def specProductivityScore (today : Day) (tasks : List Task) : Int :=
  pyRound ((4 / 10) * completionRate tasks + (3 / 10) * specRecentRate today tasks +
    (3 / 10) * min (((specRecentTasks today tasks).length : ℚ) / 20) 1 * 100)

/-! ## Theorems -/

/-- C10: for every `update_session` call on an existing pomodoro session,
`is_completed` is a one-way latch: the updated flag is the old flag OR-ed
with the payload's (truthy) completion flag, a true payload flag also
stamps `completed_at`, and a false or omitted payload flag leaves both the
flag and `completed_at` untouched — so no update ever reverts a completed
session to incomplete. -/
theorem update_session_completed_latch (now : Int) (s : PomodoroSession)
    (p : PomodoroSessionUpdate) :
    (updateSession now s p).is_completed = (s.is_completed || p.is_completed == some true) ∧
    (p.is_completed = some true → (updateSession now s p).completed_at = some now) ∧
    (p.is_completed ≠ some true →
      (updateSession now s p).is_completed = s.is_completed ∧
      (updateSession now s p).completed_at = s.completed_at) := by
  unfold updateSession pyTruthyBool
  rcases p with ⟨e, (_ | b)⟩
  · simp
  · cases b <;> simp

/-- Witness for C10 at a concrete completed session and a payload that
omits the completion flag. -/
theorem update_session_completed_latch_witness :
    (updateSession 7 ⟨"work", 25, 10, true, ⟨737000⟩, 0, some 3⟩ ⟨12, none⟩).is_completed =
      (true || ((none : Option Bool) == some true)) ∧
    ((none : Option Bool) = some true →
      (updateSession 7 ⟨"work", 25, 10, true, ⟨737000⟩, 0, some 3⟩ ⟨12, none⟩).completed_at = some 7) ∧
    ((none : Option Bool) ≠ some true →
      (updateSession 7 ⟨"work", 25, 10, true, ⟨737000⟩, 0, some 3⟩ ⟨12, none⟩).is_completed = true ∧
      (updateSession 7 ⟨"work", 25, 10, true, ⟨737000⟩, 0, some 3⟩ ⟨12, none⟩).completed_at = some 3) :=
  update_session_completed_latch 7 ⟨"work", 25, 10, true, ⟨737000⟩, 0, some 3⟩ ⟨12, none⟩

/-- C8: pomodoro stats are scoped to `session_type = "work"` sessions:
`today_sessions` counts exactly the completed work sessions started today,
`today_focus_minutes` sums `elapsed_minutes` over all work sessions started
today regardless of completion (and the all-time count is likewise
work-and-completed only); on the concrete example of three work sessions
today with minutes `[25, 25, 10]` and two completed, the stats are
`today_sessions = 2` and `today_focus_minutes = 60`. -/
theorem get_stats_work_scope (today : Day) (sessions : List PomodoroSession) :
    (getStats today sessions).today_sessions =
      (sessions.filter (fun s =>
        s.session_type == "work" && s.started_day == today && s.is_completed)).length ∧
    (getStats today sessions).today_focus_minutes =
      ((sessions.filter (fun s =>
        s.session_type == "work" && s.started_day == today)).map (·.elapsed_minutes)).sum ∧
    (getStats today sessions).total_sessions =
      (sessions.filter (fun s => s.session_type == "work" && s.is_completed)).length ∧
    (getStats ⟨737000⟩
        [⟨"work", 25, 25, true, ⟨737000⟩, 0, none⟩,
         ⟨"work", 25, 25, true, ⟨737000⟩, 0, none⟩,
         ⟨"work", 25, 10, false, ⟨737000⟩, 0, none⟩]).today_sessions = 2 ∧
    (getStats ⟨737000⟩
        [⟨"work", 25, 25, true, ⟨737000⟩, 0, none⟩,
         ⟨"work", 25, 25, true, ⟨737000⟩, 0, none⟩,
         ⟨"work", 25, 10, false, ⟨737000⟩, 0, none⟩]).today_focus_minutes = 60 := by
  refine ⟨?_, ?_, ?_, by decide, by decide⟩
  · show ((((sessions.filter _).filter _).filter _)).length = _
    rw [List.filter_filter, List.filter_filter]
    congr 1
    apply List.filter_congr
    intro a _
    cases h1 : a.session_type == "work" <;> cases h2 : a.started_day == today <;>
      cases h3 : a.is_completed <;> simp_all
  · show ((((sessions.filter _).filter _)).map _).sum = _
    rw [List.filter_filter]
    congr 2
    apply List.filter_congr
    intro a _
    cases h1 : a.session_type == "work" <;> cases h2 : a.started_day == today <;> simp_all
  · show (((sessions.filter _).filter _)).length = _
    rw [List.filter_filter]
    congr 1
    apply List.filter_congr
    intro a _
    cases h1 : a.session_type == "work" <;> cases h2 : a.is_completed <;> simp_all

/-- The weather-refresh guard of `update_task` (line 192) compares the
payload location against the row field that the `setattr` loop has already
overwritten, so it is false for every payload. -/
theorem weather_guard_false (t : Task) (p : TaskUpdateP) :
    (pyTruthyStr (p.location.getD none) &&
      ((p.location.getD none) != (applyUpdates t p).location)) = false := by
  rcases hp : p.location with _ | loc
  · simp [pyTruthyStr, hp]
  · simp [applyUpdates, hp]

/-- C9 (the code contradicts it): no task update ever re-captures the
stored weather snapshot — for every oracle reply and every payload the
updated row keeps the old `weather_data`, including the concrete failing
input of a task located `"Paris"` with an old snapshot updated to location
`"London"` while the weather service would return fresh data. -/
theorem update_task_never_refreshes_weather (hasToken : Bool) (cRes : CreateOutcome)
    (uRes : UpdateOutcome) (dRes : DeleteOutcome) (weatherRes : Option WeatherData)
    (t : Task) (p : TaskUpdateP) :
    (updateTask hasToken cRes uRes dRes weatherRes t p).1.weather_data = t.weather_data ∧
    (updateTask true (.ok (some "evt")) .ok .ok (some ⟨"fresh London weather"⟩)
        { title := "trip", description := none, date := none, time := none,
          completed := false, priority := "medium", location := some "Paris",
          category := none, weather_data := some ⟨"old Paris weather"⟩,
          google_calendar_event_id := none, sync_with_google_calendar := false }
        { location := some (some "London") }).1.weather_data =
      some ⟨"old Paris weather"⟩ := by
  constructor
  · have hw := weather_guard_false t p
    unfold updateTask
    simp only [hw, Bool.false_eq_true, if_false]
    split
    · split
      · split <;> simp [applyUpdates]
      · split
        · simp [applyUpdates]
        · split
          · split <;> simp [applyUpdates]
          · simp [applyUpdates]
    · simp [applyUpdates]
  · decide

/-- C1 (amended): disabling sync on a task that carries a (non-empty)
remote event id, for a user with a refresh token, issues exactly one remote
delete call for that id; the stored id is cleared when the delete call
returns (success or remote 404), but when the delete raises, the caught
exception skips the clearing line and the id keeps its old value — in every
case the local update itself still goes through. -/
theorem update_task_disable_sync_delete (cRes : CreateOutcome) (uRes : UpdateOutcome)
    (dRes : DeleteOutcome) (weatherRes : Option WeatherData) (t : Task) (p : TaskUpdateP)
    (eid : String) (hid : t.google_calendar_event_id = some eid) (hne : eid ≠ "")
    (hp : p.sync_with_google_calendar = some false) :
    (updateTask true cRes uRes dRes weatherRes t p).2 = [CalCall.delete eid] ∧
    (dRes ≠ .exn →
      (updateTask true cRes uRes dRes weatherRes t p).1.google_calendar_event_id = none) ∧
    (dRes = .exn →
      (updateTask true cRes uRes dRes weatherRes t p).1.google_calendar_event_id = some eid) := by
  rcases hploc : p.location with _ | loc <;> rcases dRes <;>
    simp [updateTask, applyUpdates, hploc, hid, hp, pyTruthyStr, hne]

/-- Witness for C1 at a concrete task and payload, with a succeeding
delete. -/
theorem update_task_disable_sync_delete_witness :
    (updateTask true .exn .exn DeleteOutcome.ok none
      { title := "T", description := none, date := none, time := none,
        completed := false, priority := "medium", location := none, category := none,
        weather_data := none, google_calendar_event_id := some "abc",
        sync_with_google_calendar := true }
      { sync_with_google_calendar := some false }).2 = [CalCall.delete "abc"] ∧
    (DeleteOutcome.ok ≠ DeleteOutcome.exn →
      (updateTask true .exn .exn DeleteOutcome.ok none
        { title := "T", description := none, date := none, time := none,
          completed := false, priority := "medium", location := none, category := none,
          weather_data := none, google_calendar_event_id := some "abc",
          sync_with_google_calendar := true }
        { sync_with_google_calendar := some false }).1.google_calendar_event_id = none) ∧
    (DeleteOutcome.ok = DeleteOutcome.exn →
      (updateTask true .exn .exn DeleteOutcome.ok none
        { title := "T", description := none, date := none, time := none,
          completed := false, priority := "medium", location := none, category := none,
          weather_data := none, google_calendar_event_id := some "abc",
          sync_with_google_calendar := true }
        { sync_with_google_calendar := some false }).1.google_calendar_event_id = some "abc") :=
  update_task_disable_sync_delete .exn .exn DeleteOutcome.ok none
    { title := "T", description := none, date := none, time := none,
      completed := false, priority := "medium", location := none, category := none,
      weather_data := none, google_calendar_event_id := some "abc",
      sync_with_google_calendar := true }
    { sync_with_google_calendar := some false }
    "abc" rfl (by decide) rfl

/-- Counterexample to C1 as stated: with old state `(sync=true, id="abc")`,
a payload disabling sync, and a delete call that raises, exactly one delete
call is issued but the stored id is NOT cleared — it remains `"abc"`,
contradicting "null regardless of whether the remote delete succeeded or
failed". -/
theorem update_task_disable_sync_delete_cex :
    (updateTask true .exn .exn DeleteOutcome.exn none
      { title := "T", description := none, date := none, time := none,
        completed := false, priority := "medium", location := none, category := none,
        weather_data := none, google_calendar_event_id := some "abc",
        sync_with_google_calendar := true }
      { sync_with_google_calendar := some false }).2 = [CalCall.delete "abc"] ∧
    (updateTask true .exn .exn DeleteOutcome.exn none
      { title := "T", description := none, date := none, time := none,
        completed := false, priority := "medium", location := none, category := none,
        weather_data := none, google_calendar_event_id := some "abc",
        sync_with_google_calendar := true }
      { sync_with_google_calendar := some false }).1.google_calendar_event_id ≠ none := by
  decide

/-- C2: a create (or an update that enables sync on a task with no stored
event id) for a user with a refresh token issues exactly one remote create
call; on success the stored id becomes the id returned by the provider
(`resp.json().get("id")`), and on a raised provider failure the id stays
null while the local write still commits (the handler returns the persisted
row either way). -/
theorem task_sync_create_best_effort (cRes : CreateOutcome) (uRes : UpdateOutcome)
    (dRes : DeleteOutcome) (weatherRes weatherRes2 : Option WeatherData)
    (td : TaskCreateP) (t : Task) (p : TaskUpdateP) :
    (td.sync_with_google_calendar = true →
      (createTask true cRes weatherRes td).2 = [CalCall.create] ∧
      (∀ v, cRes = .ok v →
        (createTask true cRes weatherRes td).1.google_calendar_event_id = v) ∧
      (cRes = .exn →
        (createTask true cRes weatherRes td).1.google_calendar_event_id = none)) ∧
    (t.google_calendar_event_id = none →
      (applyUpdates t p).sync_with_google_calendar = true →
      (updateTask true cRes uRes dRes weatherRes2 t p).2 = [CalCall.create] ∧
      (∀ v, cRes = .ok v →
        (updateTask true cRes uRes dRes weatherRes2 t p).1.google_calendar_event_id = v) ∧
      (cRes = .exn →
        (updateTask true cRes uRes dRes weatherRes2 t p).1.google_calendar_event_id = none)) := by
  constructor
  · intro hsync
    by_cases h : pyTruthyStr td.location = true <;>
      rcases cRes with v | _ <;> rcases weatherRes with _ | w <;>
        simp [createTask, hsync, h]
  · intro hid hsync
    simp only [applyUpdates] at hsync
    rcases hploc : p.location with _ | loc <;> rcases cRes with v | _ <;>
      simp [updateTask, applyUpdates, hploc, hid, hsync, pyTruthyStr]

/-- Witness for C2 at a concrete creation and a concrete sync-enabling
update, with a successful remote create. -/
theorem task_sync_create_best_effort_witness :
    ((createTask true (.ok (some "gid")) none
        { title := "N", sync_with_google_calendar := true }).2 = [CalCall.create] ∧
      (∀ v, CreateOutcome.ok (some "gid") = .ok v →
        (createTask true (.ok (some "gid")) none
          { title := "N", sync_with_google_calendar := true }).1.google_calendar_event_id = v) ∧
      (CreateOutcome.ok (some "gid") = .exn →
        (createTask true (.ok (some "gid")) none
          { title := "N", sync_with_google_calendar := true }).1.google_calendar_event_id = none)) :=
  (task_sync_create_best_effort (.ok (some "gid")) .ok DeleteOutcome.ok none none
    { title := "N", sync_with_google_calendar := true }
    { title := "T", description := none, date := none, time := none,
      completed := false, priority := "medium", location := none, category := none,
      weather_data := none, google_calendar_event_id := none,
      sync_with_google_calendar := false }
    { sync_with_google_calendar := some true }).1 rfl

/-- C3 (amended): the event-body builder maps a date plus a time string
whose hour (and minute, when present) fields parse as Python integers to a
one-hour timed interval labelled UTC, rolling the end date forward one day
whenever the end hour reaches 24; a date with a time string whose fields
fail integer parsing falls back to the all-day encoding; a date without a
(truthy) time yields the half-open all-day interval `date .. date+1`; and
no date at all yields the all-day interval for the server's current UTC
date.  In particular `date="2025-03-10", time="23:30"` ends at
`2025-03-11T00:30:00` and `date="2025-03-10"` with no time spans
`2025-03-10 .. 2025-03-11`. -/
theorem build_event_body_date_time_mapping (todayUtc : Ymd) (title : String)
    (desc : Option String) (d : Ymd) (tm : Option String) (loc : Option String)
    (recur : Option String) :
    (∀ t h m, tm = some t → t ≠ "" → parseHourMinute t = some (h, m) →
      (buildEventBody todayUtc title desc (some d) tm loc recur).start =
        .timed (fmtYmd d ++ "T" ++ pyZfill (toString h) 2 ++ ":" ++
          pyZfill (toString m) 2 ++ ":00") "UTC" ∧
      (buildEventBody todayUtc title desc (some d) tm loc recur).stop =
        .timed ((if 24 ≤ h + 1 then fmtYmd (nextDay d) else fmtYmd d) ++ "T" ++
          pyZfill (toString (if 24 ≤ h + 1 then (0 : Int) else h + 1)) 2 ++ ":" ++
          pyZfill (toString m) 2 ++ ":00") "UTC") ∧
    (∀ t, tm = some t → t ≠ "" → parseHourMinute t = none →
      (buildEventBody todayUtc title desc (some d) tm loc recur).start = .allDay (fmtYmd d) ∧
      (buildEventBody todayUtc title desc (some d) tm loc recur).stop =
        .allDay (fmtYmd (nextDay d))) ∧
    (tm = none ∨ tm = some "" →
      (buildEventBody todayUtc title desc (some d) tm loc recur).start = .allDay (fmtYmd d) ∧
      (buildEventBody todayUtc title desc (some d) tm loc recur).stop =
        .allDay (fmtYmd (nextDay d))) ∧
    ((buildEventBody todayUtc title desc none tm loc recur).start =
        .allDay (fmtYmd todayUtc) ∧
      (buildEventBody todayUtc title desc none tm loc recur).stop =
        .allDay (fmtYmd (nextDay todayUtc))) ∧
    (buildEventBody ⟨2024, 1, 1⟩ "X" none (some ⟨2025, 3, 10⟩) (some "23:30") none none).stop =
      .timed "2025-03-11T00:30:00" "UTC" ∧
    (buildEventBody ⟨2024, 1, 1⟩ "X" none (some ⟨2025, 3, 10⟩) none none none).start =
      .allDay "2025-03-10" ∧
    (buildEventBody ⟨2024, 1, 1⟩ "X" none (some ⟨2025, 3, 10⟩) none none none).stop =
      .allDay "2025-03-11" := by
  refine ⟨?_, ?_, ?_, ?_, by decide, by decide, by decide⟩
  · intro t h m ht hne hparse
    subst ht
    simp [buildEventBody, pyTruthyStr, hne, hparse]
  · intro t ht hne hparse
    subst ht
    simp [buildEventBody, pyTruthyStr, hne, hparse]
  · rintro (ht | ht) <;> subst ht <;> simp [buildEventBody, pyTruthyStr]
  · simp [buildEventBody]

/-- Witness for C3 at `date="2025-03-10", time="23:30"` (discharging the
timed-case hypotheses) together with the hypothesis-free concrete
conjuncts. -/
theorem build_event_body_date_time_mapping_witness :
    (buildEventBody ⟨2024, 1, 1⟩ "X" none (some ⟨2025, 3, 10⟩) (some "23:30") none none).start =
      .timed (fmtYmd ⟨2025, 3, 10⟩ ++ "T" ++ pyZfill (toString (23 : Int)) 2 ++ ":" ++
        pyZfill (toString (30 : Int)) 2 ++ ":00") "UTC" ∧
    (buildEventBody ⟨2024, 1, 1⟩ "X" none (some ⟨2025, 3, 10⟩) (some "23:30") none none).stop =
      .timed ((if 24 ≤ (23 : Int) + 1 then fmtYmd (nextDay ⟨2025, 3, 10⟩)
          else fmtYmd ⟨2025, 3, 10⟩) ++ "T" ++
        pyZfill (toString (if 24 ≤ (23 : Int) + 1 then (0 : Int) else 23 + 1)) 2 ++ ":" ++
        pyZfill (toString (30 : Int)) 2 ++ ":00") "UTC" :=
  (build_event_body_date_time_mapping ⟨2024, 1, 1⟩ "X" none ⟨2025, 3, 10⟩
    (some "23:30") none none).1 "23:30" 23 30 rfl (by decide) (by decide)

/-- Counterexample to C3 as stated: `"25:30"` is not a well-formed
`"HH:MM"` wall-clock time, yet the builder does not fall back to the
all-day encoding — it emits the (invalid) timed interval starting at
`2025-03-10T25:30:00`. -/
theorem build_event_body_malformed_cex :
    specWellFormedTime "25:30" = false ∧
    (buildEventBody ⟨2024, 1, 1⟩ "Task" none (some ⟨2025, 3, 10⟩) (some "25:30") none
        none).start = .timed "2025-03-10T25:30:00" "UTC" ∧
    isAllDayBody (buildEventBody ⟨2024, 1, 1⟩ "Task" none (some ⟨2025, 3, 10⟩)
        (some "25:30") none none) = false := by
  decide

theorem pyRound_zero : pyRound 0 = 0 := by norm_num [pyRound]

theorem pyRound1_zero : pyRound1 0 = 0 := by norm_num [pyRound1, pyRound]

/-- C7: for `days ≥ 1` the daily-stats series has exactly `days` entries,
the `i`-th entry is dated `start_date + i` (so the series runs from
`days-1` days ago through today and is strictly ascending by date), and
every day with no tasks dated on it appears zero-filled
(`total = completed = 0`, `completion_rate = 0`). -/
theorem get_daily_stats_series (days : Nat) (today : Day) (tasks : List Task)
    (hdays : 1 ≤ days) :
    (getDailyStats days today tasks).length = days ∧
    (∀ i (hi : i < (getDailyStats days today tasks).length),
      ((getDailyStats days today tasks).get ⟨i, hi⟩).date =
        ⟨(dailyStatsStart days today).ord + i⟩) ∧
    ((getDailyStats days today tasks).Pairwise (fun a b => a.date.ord < b.date.ord)) ∧
    (∀ e ∈ getDailyStats days today tasks,
      tasks.filter (fun t => t.date == some e.date) = [] →
      e.total = 0 ∧ e.completed = 0 ∧ e.completion_rate = 0) := by
  refine ⟨by simp [getDailyStats], ?_, ?_, ?_⟩
  · intro i hi
    simp [getDailyStats, dailyItem]
  · unfold getDailyStats
    rw [List.pairwise_map]
    refine (List.pairwise_lt_range days).imp ?_
    intro a b hab
    simp only [dailyItem]
    omega
  · intro e he hfil
    unfold getDailyStats at he
    obtain ⟨i, hir, rfl⟩ := List.mem_map.mp he
    have hdate : (dailyItem days today tasks i).date =
        ⟨(dailyStatsStart days today).ord + i⟩ := rfl
    rw [hdate] at hfil
    have hnil : (dailyDbTasks days today tasks).filter
        (fun t => t.date == some ⟨(dailyStatsStart days today).ord + i⟩) = [] := by
      rw [List.filter_eq_nil_iff]
      intro a ha
      exact (List.filter_eq_nil_iff.mp hfil) a ((List.mem_filter.mp ha).1)
    unfold dailyItem
    simp only [hnil]
    refine ⟨rfl, rfl, ?_⟩
    show dailyRate (List.filter _ []).length (List.length []) = 0
    simp [dailyRate, pyRound1_zero]

/-- Witness for C7 at `days = 3` with no tasks. -/
theorem get_daily_stats_series_witness :
    (getDailyStats 3 ⟨737000⟩ []).length = 3 ∧
    (∀ i (hi : i < (getDailyStats 3 ⟨737000⟩ []).length),
      ((getDailyStats 3 ⟨737000⟩ []).get ⟨i, hi⟩).date =
        ⟨(dailyStatsStart 3 ⟨737000⟩).ord + i⟩) ∧
    ((getDailyStats 3 ⟨737000⟩ []).Pairwise (fun a b => a.date.ord < b.date.ord)) ∧
    (∀ e ∈ getDailyStats 3 ⟨737000⟩ [],
      List.filter (fun t => t.date == some e.date) ([] : List Task) = [] →
      e.total = 0 ∧ e.completed = 0 ∧ e.completion_rate = 0) :=
  get_daily_stats_series 3 ⟨737000⟩ [] (by decide)

/-- The guard pattern `(a / n * 100) if n > 0 else 0` never divides by
zero: its fallible rendering always succeeds and returns the total one. -/
theorem guarded_rate_eq (a : ℚ) (n : Nat) :
    (if 0 < n then (pyDiv? a (n : ℚ)).map (· * 100) else some 0) =
      some (if 0 < n then a / (n : ℚ) * 100 else 0) := by
  by_cases h : 0 < n
  · have hne : ((n : ℚ)) ≠ 0 := ne_of_gt (by exact_mod_cast h)
    simp [h, pyDiv?, hne]
  · simp [h]

/-- C4: every ratio of the analytics metrics is guarded — the fallible
version of each rate (division modelled as raising on a zero denominator)
always returns the total version, so the computation never raises; and
every rate yields `0` when its cohort is empty, in particular for
`total = 0` the summary reports `completion_rate = 0`, a productivity
score of `0`, a zero month rate, an all-zero weekly trend, and no category
rows. -/
theorem analytics_ratios_guarded (today : Day) (tasks : List Task) :
    completionRateE tasks = some (completionRate tasks) ∧
    (∀ d, dayRateE tasks d = some (dayRate tasks d)) ∧
    recentRateE today tasks = some (recentRate today tasks) ∧
    monthRateE today tasks = some (monthRate today tasks) ∧
    productivityScoreE today tasks = some (productivityScore today tasks) ∧
    (∀ name, categoryPercentageE tasks name = some (categoryPercentage tasks name)) ∧
    (∀ c total, dailyRateE c total = some (dailyRate c total)) ∧
    (tasks.length = 0 →
      (analyticsSummary today tasks).completion_rate = 0 ∧
      (analyticsSummary today tasks).productivity_score = 0 ∧
      (analyticsSummary today tasks).goal_achievement_month = 0 ∧
      weeklyTrend today tasks = List.replicate 7 0 ∧
      categoriesData tasks = []) ∧
    (∀ d, tasksOnDay tasks d = [] → dayRate tasks d = 0) ∧
    (recentTasks today tasks = [] → recentRate today tasks = 0) ∧
    (monthTasks today tasks = [] → monthRate today tasks = 0) ∧
    (∀ name, tasks.length = 0 → categoryPercentage tasks name = 0) := by
  have hc : completionRateE tasks = some (completionRate tasks) := by
    unfold completionRateE completionRate
    exact guarded_rate_eq _ _
  have hr : recentRateE today tasks = some (recentRate today tasks) := by
    unfold recentRateE recentRate
    exact guarded_rate_eq _ _
  refine ⟨hc, ?_, hr, ?_, ?_, ?_, ?_, ?_, ?_, ?_, ?_, ?_⟩
  · intro d
    unfold dayRateE dayRate
    exact guarded_rate_eq _ _
  · unfold monthRateE monthRate
    exact guarded_rate_eq _ _
  · unfold productivityScoreE productivityScore
    rw [hc, hr]
    simp [pyDiv?]
  · intro name
    unfold categoryPercentageE categoryPercentage
    exact guarded_rate_eq _ _
  · intro c total
    unfold dailyRateE dailyRate
    by_cases h : 0 < total
    · have hne : ((total : ℚ)) ≠ 0 := ne_of_gt (by exact_mod_cast h)
      simp [h, pyDiv?, hne]
    · simp [h]
  · intro hlen
    have htasks : tasks = [] := List.length_eq_zero.mp hlen
    subst htasks
    refine ⟨?_, ?_, ?_, ?_, rfl⟩
    · simp [analyticsSummary, completionRate, pyRound1_zero]
    · show productivityScore today [] = 0
      have h1 : recentTasks today ([] : List Task) = [] := rfl
      simp [productivityScore, completionRate, recentRate, h1]
      norm_num [pyRound]
    · simp [analyticsSummary, monthRate, monthTasks, pyRound1_zero]
    · rw [List.eq_replicate_iff]
      refine ⟨by simp [weeklyTrend], ?_⟩
      intro b hb
      obtain ⟨i, hir, rfl⟩ := List.mem_map.mp hb
      simp [dayRate, tasksOnDay, pyRound1_zero]
  · intro d hd
    unfold dayRate
    rw [show tasksOnDay tasks d = [] from hd]
    simp
  · intro h
    unfold recentRate
    rw [h]
    simp
  · intro h
    unfold monthRate
    rw [h]
    simp
  · intro name hlen
    unfold categoryPercentage
    simp [hlen]

/-- Witness for C4 at the empty task set. -/
theorem analytics_ratios_guarded_witness :
    completionRateE [] = some (completionRate []) ∧
    (analyticsSummary ⟨737000⟩ []).completion_rate = 0 ∧
    (analyticsSummary ⟨737000⟩ []).productivity_score = 0 :=
  ⟨(analytics_ratios_guarded ⟨737000⟩ []).1,
   ((analytics_ratios_guarded ⟨737000⟩ []).2.2.2.2.2.2.2.1 rfl).1,
   ((analytics_ratios_guarded ⟨737000⟩ []).2.2.2.2.2.2.2.1 rfl).2.1⟩

/-- C5 (amended): `productivity_score` equals
`round(0.4*completion_rate + 0.3*recent_rate + 0.3*min(recent_count/20,1)*100)`
(unrounded rates), where "recent" ranges over the tasks whose date is on or
after `today - 7` days with NO upper bound: future-dated tasks are
included, and the window reaches 8 calendar days back counting today. -/
theorem productivity_score_formula (today : Day) (tasks : List Task) :
    (analyticsSummary today tasks).productivity_score =
      pyRound ((4 / 10) * completionRate tasks + (3 / 10) * recentRate today tasks +
        (3 / 10) * min (((recentTasks today tasks).length : ℚ) / 20) 1 * 100) ∧
    (∀ t, t ∈ recentTasks today tasks ↔
      t ∈ tasks ∧ ∃ dd : Day, t.date = some dd ∧ today.ord - 7 ≤ dd.ord) := by
  constructor
  · show productivityScore today tasks = _
    unfold productivityScore
    exact congrArg pyRound (by ring)
  · intro t
    unfold recentTasks
    rw [List.mem_filter]
    cases ht : t.date with
    | none => simp [ht]
    | some dd => simp [ht]

/-- Witness for C5 (no hypotheses beyond binders; instantiated at a
one-task set). -/
theorem productivity_score_formula_witness :
    (analyticsSummary ⟨0⟩
      [{ title := "f", description := none, date := some ⟨5⟩, time := none,
         completed := true, priority := "medium", location := none, category := none,
         weather_data := none, google_calendar_event_id := none,
         sync_with_google_calendar := false }]).productivity_score =
      pyRound ((4 / 10) * completionRate
          [{ title := "f", description := none, date := some ⟨5⟩, time := none,
             completed := true, priority := "medium", location := none, category := none,
             weather_data := none, google_calendar_event_id := none,
             sync_with_google_calendar := false }] +
        (3 / 10) * recentRate ⟨0⟩
          [{ title := "f", description := none, date := some ⟨5⟩, time := none,
             completed := true, priority := "medium", location := none, category := none,
             weather_data := none, google_calendar_event_id := none,
             sync_with_google_calendar := false }] +
        (3 / 10) * min (((recentTasks ⟨0⟩
          [{ title := "f", description := none, date := some ⟨5⟩, time := none,
             completed := true, priority := "medium", location := none, category := none,
             weather_data := none, google_calendar_event_id := none,
             sync_with_google_calendar := false }]).length : ℚ) / 20) 1 * 100) :=
  (productivity_score_formula ⟨0⟩
    [{ title := "f", description := none, date := some ⟨5⟩, time := none,
       completed := true, priority := "medium", location := none, category := none,
       weather_data := none, google_calendar_event_id := none,
       sync_with_google_calendar := false }]).1

/-- Counterexample to C5 as stated: a single completed task dated five days
in the FUTURE.  The code counts it as "recent" (the filter has no upper
bound) and scores 72, while the spec's formula with its trailing 7-day
window ending today scores 40. -/
theorem productivity_score_window_cex :
    productivityScore ⟨0⟩
      [{ title := "f", description := none, date := some ⟨5⟩, time := none,
         completed := true, priority := "medium", location := none, category := none,
         weather_data := none, google_calendar_event_id := none,
         sync_with_google_calendar := false }] = 72 ∧
    specProductivityScore ⟨0⟩
      [{ title := "f", description := none, date := some ⟨5⟩, time := none,
         completed := true, priority := "medium", location := none, category := none,
         weather_data := none, google_calendar_event_id := none,
         sync_with_google_calendar := false }] = 40 := by
  constructor
  · have h1 : recentTasks ⟨0⟩
        [{ title := "f", description := none, date := some ⟨5⟩, time := none,
           completed := true, priority := "medium", location := none, category := none,
           weather_data := none, google_calendar_event_id := none,
           sync_with_google_calendar := false }] =
        [{ title := "f", description := none, date := some ⟨5⟩, time := none,
           completed := true, priority := "medium", location := none, category := none,
           weather_data := none, google_calendar_event_id := none,
           sync_with_google_calendar := false }] := by decide
    unfold productivityScore recentRate
    rw [h1]
    have h2 : completionRate
        [{ title := "f", description := none, date := some ⟨5⟩, time := none,
           completed := true, priority := "medium", location := none, category := none,
           weather_data := none, google_calendar_event_id := none,
           sync_with_google_calendar := false }] = 100 := by
      unfold completionRate completedCount
      norm_num
    rw [h2]
    norm_num [completedCount, pyRound]
  · have h1 : specRecentTasks ⟨0⟩
        [{ title := "f", description := none, date := some ⟨5⟩, time := none,
           completed := true, priority := "medium", location := none, category := none,
           weather_data := none, google_calendar_event_id := none,
           sync_with_google_calendar := false }] = [] := by decide
    unfold specProductivityScore specRecentRate
    rw [h1]
    have h2 : completionRate
        [{ title := "f", description := none, date := some ⟨5⟩, time := none,
           completed := true, priority := "medium", location := none, category := none,
           weather_data := none, google_calendar_event_id := none,
           sync_with_google_calendar := false }] = 100 := by
      unfold completionRate completedCount
      norm_num
    rw [h2]
    norm_num [pyRound]

theorem streakAux_le (tasks : List Task) : ∀ fuel (d : Day), streakAux tasks d fuel ≤ fuel
  | 0, _ => Nat.le_refl 0
  | fuel + 1, d => by
    unfold streakAux
    split
    · exact Nat.succ_le_succ (streakAux_le tasks fuel _)
    · exact Nat.zero_le _

theorem streakAux_mem (tasks : List Task) :
    ∀ fuel (d : Day) (k : Nat), k < streakAux tasks d fuel →
      hasCompletedOn tasks ⟨d.ord - k⟩ = true := by
  intro fuel
  induction fuel with
  | zero =>
    intro d k h
    simp [streakAux] at h
  | succ fuel ih =>
    intro d k h
    unfold streakAux at h
    by_cases hc : hasCompletedOn tasks d = true
    · rw [if_pos hc] at h
      cases k with
      | zero =>
        have hd : (⟨d.ord - (0 : Nat)⟩ : Day) = d := by simp
        rw [hd]
        exact hc
      | succ j =>
        have hj : j < streakAux tasks ⟨d.ord - 1⟩ fuel := by omega
        have hrec := ih ⟨d.ord - 1⟩ j hj
        have hd : (⟨d.ord - (j + 1 : Nat)⟩ : Day) = ⟨d.ord - 1 - j⟩ := by
          congr 1
          push_cast
          ring
        rw [hd]
        exact hrec
    · rw [if_neg hc] at h
      omega

theorem streakAux_stop (tasks : List Task) :
    ∀ fuel (d : Day), streakAux tasks d fuel < fuel →
      hasCompletedOn tasks ⟨d.ord - streakAux tasks d fuel⟩ = false := by
  intro fuel
  induction fuel with
  | zero =>
    intro d h
    omega
  | succ fuel ih =>
    intro d h
    have hstep : streakAux tasks d (fuel + 1) =
        if hasCompletedOn tasks d = true then streakAux tasks ⟨d.ord - 1⟩ fuel + 1
        else 0 := rfl
    by_cases hc : hasCompletedOn tasks d = true
    · have hunf : streakAux tasks d (fuel + 1) = streakAux tasks ⟨d.ord - 1⟩ fuel + 1 := by
        rw [hstep, if_pos hc]
      rw [hunf] at h ⊢
      have hrec := ih ⟨d.ord - 1⟩ (by omega)
      have hd : (⟨d.ord - (streakAux tasks ⟨d.ord - 1⟩ fuel + 1 : Nat)⟩ : Day) =
          ⟨d.ord - 1 - streakAux tasks ⟨d.ord - 1⟩ fuel⟩ := by
        congr 1
        push_cast
        ring
      rw [hd]
      exact hrec
    · have hunf : streakAux tasks d (fuel + 1) = 0 := by
        rw [hstep, if_neg hc]
      rw [hunf]
      have hd : (⟨d.ord - (0 : Nat)⟩ : Day) = d := by simp
      rw [hd]
      exact Bool.not_eq_true _ |>.mp hc

/-- Pigeonhole: `tasks.length + 1` consecutive days cannot all carry a
completed task, because each such day consumes a distinct task. -/
theorem not_all_days_completed (tasks : List Task) (d : Day) :
    ¬ (∀ k, k ≤ tasks.length → hasCompletedOn tasks ⟨d.ord - k⟩ = true) := by
  intro h
  have hex : ∀ k : Fin (tasks.length + 1), ∃ t, t ∈ tasks ∧
      t.date = some ⟨d.ord - k⟩ ∧ t.completed = true := by
    intro k
    have hk := h k (Nat.lt_succ_iff.mp k.isLt)
    rw [hasCompletedOn, List.any_eq_true] at hk
    obtain ⟨t, ht, hp⟩ := hk
    rw [Bool.and_eq_true, beq_iff_eq] at hp
    exact ⟨t, ht, hp.1, hp.2⟩
  choose f hf1 hf2 hf3 using hex
  have hinj : Function.Injective f := by
    intro a b hab
    have ha := hf2 a
    have hb := hf2 b
    rw [hab] at ha
    rw [hb] at ha
    have : d.ord - (b : Int) = d.ord - (a : Int) := congrArg Day.ord (Option.some.inj ha)
    have hab' : (a : Nat) = (b : Nat) := by omega
    exact Fin.ext hab'
  have hcard : (Finset.univ : Finset (Fin (tasks.length + 1))).card ≤ tasks.toFinset.card :=
    Finset.card_le_card_of_injOn f (fun a _ => List.mem_toFinset.mpr (hf1 a)) hinj.injOn
  have h1 : tasks.toFinset.card ≤ tasks.length := List.toFinset_card_le tasks
  rw [Finset.card_univ, Fintype.card_fin] at hcard
  omega

/-- C6: `current_streak` counts exactly the consecutive calendar days,
walking backward from today, on which some completed task is dated — every
day strictly before the streak length has one, and the first day past the
streak has none (hence a streak of 0 when today has no completed task); on
the concrete set with completed tasks dated today and yesterday but not
two days ago the streak is 2. -/
theorem current_streak_spec (today : Day) (tasks : List Task) :
    (∀ k : Nat, k < (analyticsSummary today tasks).current_streak →
      hasCompletedOn tasks ⟨today.ord - k⟩ = true) ∧
    hasCompletedOn tasks
      ⟨today.ord - (analyticsSummary today tasks).current_streak⟩ = false ∧
    currentStreak ⟨737000⟩
      [{ title := "a", description := none, date := some ⟨737000⟩, time := none,
         completed := true, priority := "medium", location := none, category := none,
         weather_data := none, google_calendar_event_id := none,
         sync_with_google_calendar := false },
       { title := "b", description := none, date := some ⟨736999⟩, time := none,
         completed := true, priority := "medium", location := none, category := none,
         weather_data := none, google_calendar_event_id := none,
         sync_with_google_calendar := false }] = 2 := by
  have hcs : (analyticsSummary today tasks).current_streak =
      streakAux tasks today (tasks.length + 1) := rfl
  rw [hcs]
  have hlt : streakAux tasks today (tasks.length + 1) < tasks.length + 1 := by
    rcases Nat.lt_or_ge (streakAux tasks today (tasks.length + 1)) (tasks.length + 1) with
      hl | hg
    · exact hl
    · exfalso
      apply not_all_days_completed tasks today
      intro k hk
      exact streakAux_mem tasks (tasks.length + 1) today k (by omega)
  refine ⟨?_, streakAux_stop tasks (tasks.length + 1) today hlt, by decide⟩
  intro k hk
  exact streakAux_mem tasks (tasks.length + 1) today k hk

/-- Witness for C6 at the concrete two-day streak. -/
theorem current_streak_spec_witness :
    (∀ k : Nat, k < (analyticsSummary ⟨737000⟩
      [{ title := "a", description := none, date := some ⟨737000⟩, time := none,
         completed := true, priority := "medium", location := none, category := none,
         weather_data := none, google_calendar_event_id := none,
         sync_with_google_calendar := false }]).current_streak →
      hasCompletedOn
        [{ title := "a", description := none, date := some ⟨737000⟩, time := none,
           completed := true, priority := "medium", location := none, category := none,
           weather_data := none, google_calendar_event_id := none,
           sync_with_google_calendar := false }] ⟨(737000 : Int) - k⟩ = true) ∧
    hasCompletedOn
      [{ title := "a", description := none, date := some ⟨737000⟩, time := none,
         completed := true, priority := "medium", location := none, category := none,
         weather_data := none, google_calendar_event_id := none,
         sync_with_google_calendar := false }]
      ⟨(737000 : Int) - (analyticsSummary ⟨737000⟩
        [{ title := "a", description := none, date := some ⟨737000⟩, time := none,
           completed := true, priority := "medium", location := none, category := none,
           weather_data := none, google_calendar_event_id := none,
           sync_with_google_calendar := false }]).current_streak⟩ = false ∧
    currentStreak ⟨737000⟩
      [{ title := "a", description := none, date := some ⟨737000⟩, time := none,
         completed := true, priority := "medium", location := none, category := none,
         weather_data := none, google_calendar_event_id := none,
         sync_with_google_calendar := false },
       { title := "b", description := none, date := some ⟨736999⟩, time := none,
         completed := true, priority := "medium", location := none, category := none,
         weather_data := none, google_calendar_event_id := none,
         sync_with_google_calendar := false }] = 2 :=
  current_streak_spec ⟨737000⟩
    [{ title := "a", description := none, date := some ⟨737000⟩, time := none,
       completed := true, priority := "medium", location := none, category := none,
       weather_data := none, google_calendar_event_id := none,
       sync_with_google_calendar := false }]

end App
